import Mathlib

/-!
Shallow embedding of the Lp-meteora trading engine, translated from the
TypeScript sources:
  - `src/ZapOutManager.ts` (quote aggregation, zap-out liquidity removal)
  - `src/utils/swapUtils.ts` (swap retry loop, escalation, token metadata cache)
  - `src/LiquidityPoolManager.ts` (position-creation retry loop, amount validation)
  - `src/bot/TelegramBot.ts` (rebalancing cycle: diff, allocation, pacing)

External calls (RPC, HTTP, SDK) are modelled as oracle functions passed in as
arguments; JavaScript numbers appearing in decimal arithmetic are modelled as
exact rationals, `BN` big integers as `Int`/`Nat`, and thrown exceptions as
`Except String`.
-/

/-- `QuoteResult` of `ZapOutManager.ts`: protocol name, output amount (`BN`),
and an optional error message set by the per-venue catch handler. -/
structure QuoteResult where
  protocol : String
  amount : Int
  error : Option String
deriving DecidableEq, Repr

/-- JavaScript truthiness of the optional `error` field: an absent field and
the empty string are both falsy. -/
def errTruthy : Option String → Bool
  | none => false
  | some s => !(s == "")

/-- The filter predicate of `selectBestQuote`:
`quote !== null && !quote.error && quote.amount.gt(new BN(0))`
(the null test is handled by `Option.filterMap` below). -/
def isValidQuote (q : QuoteResult) : Bool :=
  !(errTruthy q.error) && decide (0 < q.amount)

/-- `Object.values({nativeQuote, jupiterQuote})` filtered to valid quotes;
the native quote precedes the Jupiter quote (object-literal key order). -/
def validQuotes (nativeQuote jupiterQuote : Option QuoteResult) : List QuoteResult :=
  ([nativeQuote, jupiterQuote].filterMap id).filter isValidQuote

/-- `validQuotes.reduce((best, current) => current.amount.gt(best.amount) ? current : best)`
with the first list element as the initial accumulator. -/
def bestOf (q : QuoteResult) (rest : List QuoteResult) : QuoteResult :=
  rest.foldl (fun best current => if best.amount < current.amount then current else best) q

/-- `ZapOutManager.selectBestQuote`: throws when no valid quote remains,
otherwise returns the protocol and amount of the reduce-maximal quote. -/
def selectBestQuote (nativeQuote jupiterQuote : Option QuoteResult) :
    Except String (String × Int) :=
  match validQuotes nativeQuote jupiterQuote with
  | [] => Except.error "No valid quotes obtained from any protocol"
  | q :: rest =>
    let best := bestOf q rest
    Except.ok (best.protocol, best.amount)

/-- The attempt numbers visited by `for (let attempt = s; ...; attempt++)`
running `k` times: `[s, s+1, ..., s+k-1]`. -/
def attemptNumbers : Nat → Nat → List Nat
  | _, 0 => []
  | s, k + 1 => s :: attemptNumbers (s + 1) k

/-- One pass of the retry loops of `SwapManager.swapTokens` and
`LiquidityPoolManager.createPositionAndAddLiquidity`: each attempt either
returns the operation's result or records the error in `lastError` and moves
on.  Returns the successful result (if any), the number of times the per-attempt
body ran, and the final `lastError`. -/
def retryRun (op : Nat → Except String α) :
    List Nat → Option String → Option α × Nat × Option String
  | [], lastError => (none, 0, lastError)
  | a :: rest, lastError =>
    match op a with
    | Except.ok v => (some v, 1, lastError)
    | Except.error e =>
      let r := retryRun op rest (some e)
      (r.1, r.2.1 + 1, r.2.2)

/-- JavaScript string interpolation of `lastError?.message` when `lastError`
may be null: a null yields the text `undefined`. -/
def jsOptMessage : Option String → String
  | none => "undefined"
  | some m => m

/-- The common shape of the two retry loops: run attempts `1..maxRetries`;
on success return the result, on exhaustion throw
`` `${failHead}${maxRetries} attempts. Last error: ${lastError?.message}` ``.
The second component counts how many times the per-attempt body ran. -/
def retryTemplate (failHead : String) (op : Nat → Except String α) (maxRetries : Nat) :
    Except String α × Nat :=
  match retryRun op (attemptNumbers 1 maxRetries) none with
  | (some v, n, _) => (Except.ok v, n)
  | (none, n, lastError) =>
    (Except.error (failHead ++ toString maxRetries ++ " attempts. Last error: " ++
      jsOptMessage lastError), n)

/-- `SwapManager.swapTokens` retry loop (`swapUtils.ts`), with the per-attempt
body (quote, swap build, sign, send) abstracted as `op`. -/
def swapTokensRetry (op : Nat → Except String α) (maxRetries : Nat) :
    Except String α × Nat :=
  retryTemplate "Swap failed after " op maxRetries

/-- `LiquidityPoolManager.createPositionAndAddLiquidity` retry loop, with the
per-attempt body abstracted as `op`. -/
def createPositionRetry (op : Nat → Except String α) (maxRetries : Nat) :
    Except String α × Nat :=
  retryTemplate "Position creation failed after " op maxRetries

/-- `const retrySlippage = config.slippage + (attempt - 1) * 50` (`swapUtils.ts`). -/
def retrySlippage (slippage attempt : Nat) : Nat :=
  slippage + (attempt - 1) * 50

/-- `const retryMaxAccounts = Math.min(config.maxAccounts + (attempt - 1) * 10, 50)`. -/
def retryMaxAccounts (maxAccounts attempt : Nat) : Nat :=
  min (maxAccounts + (attempt - 1) * 10) 50

/-- `const baseSlippageBuffer = new Decimal(1.05)` (`LiquidityPoolManager.ts`). -/
def baseSlippageBuffer : ℚ := 105 / 100

/-- `const retrySlippageBuffer = new Decimal(1 + (attempt - 1) * 0.02)`. -/
def retrySlippageBuffer (attempt : Nat) : ℚ :=
  1 + ((attempt - 1 : Nat) : ℚ) * (2 / 100)

/-- `const totalSlippageBuffer = baseSlippageBuffer.mul(retrySlippageBuffer)`. -/
def totalSlippageBuffer (attempt : Nat) : ℚ :=
  baseSlippageBuffer * retrySlippageBuffer attempt

/-- `const amountReduction = new Decimal(1 - (attempt - 1) * 0.01)`. -/
def amountReduction (attempt : Nat) : ℚ :=
  1 - ((attempt - 1 : Nat) : ℚ) * (1 / 100)

/-- A JavaScript number as produced by `Number(config.tokenAAmount)`:
either a finite value (modelled exactly as a rational) or one of the
non-finite values `NaN`, `Infinity`, `-Infinity`. -/
inductive DecVal where
  | fin (q : ℚ)
  | nan
  | posInf
  | negInf
deriving DecidableEq, Repr

/-- `isFinite(x)`. -/
def isFiniteDec : DecVal → Bool
  | .fin _ => true
  | _ => false

/-- `!isFinite(x) || x <= 0` (the guard of the invalid-amount throw;
for non-finite values the comparison is never reached). -/
def invalidAmount (d : DecVal) : Bool :=
  !isFiniteDec d ||
    (match d with
     | .fin q => decide (q ≤ 0)
     | _ => false)

/-- JavaScript rendering of the amount inside the thrown message. -/
def showDec : DecVal → String
  | .fin q => toString q
  | .nan => "NaN"
  | .posInf => "Infinity"
  | .negInf => "-Infinity"

/-- The body of one attempt of `createPositionAndAddLiquidity`:
`getPoolAndTokenInfo` plus the token-A-info check (`pre`), then the
invalid-amount validation of `tokenAAmount` and `tokenBAmount`, then the
remaining work of the attempt (`rest`: liquidity delta, transaction build,
submit).  All of it sits inside the loop's try block. -/
def positionAttempt (pre : Nat → Except String Unit) (tokenAAmount tokenBAmount : DecVal)
    (rest : Nat → Except String α) (attempt : Nat) : Except String α :=
  match pre attempt with
  | Except.error e => Except.error e
  | Except.ok _ =>
    if invalidAmount tokenAAmount then
      Except.error ("Invalid tokenAAmount: " ++ showDec tokenAAmount)
    else if invalidAmount tokenBAmount then
      Except.error ("Invalid tokenBAmount: " ++ showDec tokenBAmount)
    else rest attempt

/-- `LiquidityPoolManager.createPositionAndAddLiquidity(maxRetries)`. -/
def createPositionAndAddLiquidityModel (pre : Nat → Except String Unit)
    (tokenAAmount tokenBAmount : DecVal) (rest : Nat → Except String α)
    (maxRetries : Nat) : Except String α × Nat :=
  createPositionRetry (positionAttempt pre tokenAAmount tokenBAmount rest) maxRetries

/-- A wallet LP position as seen by `getAllPoolPostions` (`TelegramBot.ts`);
only the pool address matters for the rebalancing diff. -/
structure PositionM where
  pool : String
deriving DecidableEq, Repr

/-- A trending-token profile; only the pair (pool) address and symbol matter
for the diff and the allocation. -/
structure TokenProfileM where
  pairAddress : String
  symbol : String
deriving DecidableEq, Repr

/-- `const currentPool = new Set(); for (const pos of currentPositions) currentPool.add(pos.pool)`
— as a duplicate-free list in insertion order. -/
def currentPoolOf (positions : List PositionM) : List String :=
  (positions.map (·.pool)).dedup

/-- `new Set(validTrending.map(token => token.pairAddress))` — membership only. -/
def trendingPairsOf (validTrending : List TokenProfileM) : List String :=
  validTrending.map (·.pairAddress)

/-- `const poolRemove = Array.from(currentPool).filter(token => !trendingTokens.has(token))`. -/
def poolRemoveOf (positions : List PositionM) (validTrending : List TokenProfileM) :
    List String :=
  (currentPoolOf positions).filter (fun p => !((trendingPairsOf validTrending).contains p))

/-- `const tokensToAdd = validTrending.filter(token => !currentPool.has(token.pairAddress))`. -/
def tokensToAddOf (validTrending : List TokenProfileM) (positions : List PositionM) :
    List TokenProfileM :=
  validTrending.filter (fun t => !((currentPoolOf positions).contains t.pairAddress))

/-- `const availableSol = Number(solBalance.formatted) * 0.989`. -/
def availableSolOf (balance : ℚ) : ℚ :=
  balance * (989 / 1000)

/-- `const solPerToken = Math.min(availableSol / tokensToAdd.length, MAX_SOL_PER_TOKEN)`. -/
def solPerTokenOf (availableSol : ℚ) (numTokens : Nat) (maxSolPerToken : ℚ) : ℚ :=
  min (availableSol / (numTokens : ℚ)) maxSolPerToken

/-- Total capital committed in the add phase: every candidate receives the
same `solPerToken` allocation. -/
def totalAllocated (numTokens : Nat) (alloc : ℚ) : ℚ :=
  (numTokens : ℚ) * alloc

/-- `TokenUtils.getTokenDecimals` cache key: `` `${mint}_${program}` ``. -/
def cacheKeyOf (mint program : String) : String :=
  mint ++ "_" ++ program

/-- `TokenUtils.getTokenDecimals` (`tokenUtils.ts`): consult the cache first;
on a miss call the remote mint lookup, caching its result, or on failure
caching and returning the documented default of 6.  The cache (`Map`) is an
association list whose most recent insertion shadows older ones; the boolean
reports whether the remote lookup was issued on this call. -/
def getTokenDecimalsModel (remote : String → Except String Nat)
    (cache : List (String × Nat)) (key : String) :
    Nat × List (String × Nat) × Bool :=
  match cache.lookup key with
  | some d => (d, cache, false)
  | none =>
    match remote key with
    | Except.ok d => (d, (key, d) :: cache, true)
    | Except.error _ => (6, (key, 6) :: cache, true)

/-- Observable actions of one automated-trading cycle, restricted to
transaction-submitting items and pacing delays. -/
inductive Ev where
  | zap (pool : String)
  | add (pair : String)
  | delay (ms : Nat)
deriving DecidableEq, Repr

/-- The remove-phase `for (const pool of poolRemove)` loop body: one zap-out
per pool (failures are caught and logged), with no delay inside the loop. -/
def removeLoop : List String → List Ev
  | [] => []
  | p :: rest => Ev.zap p :: removeLoop rest

/-- The remove phase: the loop, then — only when `poolRemove.length > 0` —
a single `await new Promise(resolve => setTimeout(resolve, 3000))` after the
whole loop. -/
def removePhase (poolRemove : List String) : List Ev :=
  if poolRemove.length > 0 then removeLoop poolRemove ++ [Ev.delay 3000] else []

/-- The add-phase loop body: `createAutomatedPosition` for each candidate;
on success the 3-second pacing delay runs inside the try block, on failure the
catch handler skips straight to the next candidate. -/
def addLoop (succ : String → Bool) : List String → List Ev
  | [] => []
  | t :: rest =>
    if succ t then Ev.add t :: Ev.delay 3000 :: addLoop succ rest
    else Ev.add t :: addLoop succ rest

/-- The transaction-relevant event trace of `executeAutomatedTrading`:
remove phase followed by add phase. -/
def cycleTrace (poolRemove : List String) (tokensToAdd : List String)
    (succ : String → Bool) : List Ev :=
  removePhase poolRemove ++ addLoop succ tokensToAdd

/-- An event that submits transactions under the shared signer. -/
def isTxEvent : Ev → Bool
  | .zap _ => true
  | .add _ => true
  | .delay _ => false

/-- The pacing property claimed of a trace: no two transaction-submitting
events are adjacent. -/
def pacedApartB (tr : List Ev) : Bool :=
  (tr.zip tr.tail).all (fun p => !(isTxEvent p.1 && isTxEvent p.2))

/-- `PoolType` of `ZapOutManager.ts`. -/
inductive PoolTypeM where
  | dammV2
  | dlmm
deriving DecidableEq, Repr

/-- The part of a DAMM V2 `PositionState` used by the removal path. -/
structure DammPositionState where
  unlockedLiquidity : Nat
deriving DecidableEq, Repr

/-- One bin of a DLMM position's `positionBinData`. -/
structure BinData where
  binId : Int
  positionXAmount : Nat
  positionYAmount : Nat
deriving DecidableEq, Repr

/-- A DLMM user position: its bin data. -/
structure DlmmPositionM where
  bins : List BinData
deriving DecidableEq, Repr

/-- Total X and Y amounts summed over all bins of all positions
(`removeDlmmLiquidity`). -/
def dlmmTotals (userPositions : List DlmmPositionM) : Nat × Nat :=
  userPositions.foldl
    (fun acc p =>
      p.bins.foldl (fun a b => (a.1 + b.positionXAmount, a.2 + b.positionYAmount)) acc)
    (0, 0)

/-- Summary of the liquidity-removal step of `executeZapOut`. -/
inductive RemovalSummary where
  /-- DAMM V2: `removeAllLiquidityAndClosePosition` on the first position;
  `liquidity` is the `unlockedLiquidity` used for the removed-amount maths,
  `closed` records that the position is closed. -/
  | dammRemoval (liquidity : Nat) (closed : Bool)
  /-- DLMM: percentage-scaled removal amounts and the bps passed to
  `removeLiquidity` with `shouldClaimAndClose: true`. -/
  | dlmmRemoval (amountX : Nat) (amountY : Nat) (bps : Nat)
deriving DecidableEq, Repr

/-- `ZapOutManager.removeDammV2Liquidity`: takes the first position, removes
its entire `unlockedLiquidity` (the `percentageToZapOut` scaling is commented
out in the source) via `removeAllLiquidityAndClosePosition`. -/
def removeDammV2Model (positions : List DammPositionState) (percentageToZapOut : Nat) :
    Except String RemovalSummary :=
  match positions with
  | [] => Except.error "No positions found for this user in DAMM V2 pool"
  | p :: _ => Except.ok (RemovalSummary.dammRemoval p.unlockedLiquidity true)

/-- `ZapOutManager.removeDlmmLiquidity`: sums the bin amounts, scales the
removal amounts by `percentageToZapOut / 100` (BN integer division), and
removes `percentageToZapOut * 100` bps from every position. -/
def removeDlmmModel (userPositions : List DlmmPositionM) (percentageToZapOut : Nat) :
    Except String RemovalSummary :=
  match userPositions with
  | [] => Except.error "No positions found for this user in DLMM pool"
  | _ :: _ =>
    let t := dlmmTotals userPositions
    Except.ok (RemovalSummary.dlmmRemoval
      (t.1 * percentageToZapOut / 100)
      (t.2 * percentageToZapOut / 100)
      (percentageToZapOut * 100))

/-- The liquidity-removal dispatch at the start of `executeZapOut`. -/
def executeZapOutRemoval (poolType : PoolTypeM) (dammPositions : List DammPositionState)
    (dlmmPositions : List DlmmPositionM) (percentageToZapOut : Nat) :
    Except String RemovalSummary :=
  match poolType with
  | .dammV2 => removeDammV2Model dammPositions percentageToZapOut
  | .dlmm => removeDlmmModel dlmmPositions percentageToZapOut

/-! ## Theorems -/

theorem bestOf_cons (q r : QuoteResult) (rs : List QuoteResult) :
    bestOf q (r :: rs) = bestOf (if q.amount < r.amount then r else q) rs := rfl

theorem bestOf_mem : ∀ (rest : List QuoteResult) (q : QuoteResult),
    bestOf q rest ∈ q :: rest
  | [], q => by simp [bestOf]
  | r :: rs, q => by
    rw [bestOf_cons]
    by_cases hlt : q.amount < r.amount
    · rw [if_pos hlt]
      rcases List.mem_cons.mp (bestOf_mem rs r) with h1 | h1
      · rw [h1]; simp
      · simp [h1]
    · rw [if_neg hlt]
      rcases List.mem_cons.mp (bestOf_mem rs q) with h1 | h1
      · rw [h1]; simp
      · simp [h1]

theorem bestOf_ge : ∀ (rest : List QuoteResult) (q : QuoteResult),
    ∀ x ∈ q :: rest, x.amount ≤ (bestOf q rest).amount
  | [], q => by simp [bestOf]
  | r :: rs, q => by
    intro x hx
    rw [bestOf_cons]
    have hb1 : q.amount ≤ (if q.amount < r.amount then r else q).amount := by
      by_cases hlt : q.amount < r.amount
      · simp only [if_pos hlt]; omega
      · simp only [if_neg hlt]; omega
    have hb2 : r.amount ≤ (if q.amount < r.amount then r else q).amount := by
      by_cases hlt : q.amount < r.amount
      · simp only [if_pos hlt]; omega
      · simp only [if_neg hlt]; omega
    have hrec := bestOf_ge rs (if q.amount < r.amount then r else q)
    have hbb := hrec _ (List.mem_cons_self _ _)
    rcases List.mem_cons.mp hx with h1 | h1
    · subst h1; omega
    · rcases List.mem_cons.mp h1 with h2 | h2
      · subst h2; omega
      · exact hrec x (List.mem_cons_of_mem _ h2)

/-- Claim C1: when at least one venue quote is non-null, error-free and has a
strictly positive output amount, `selectBestQuote` returns a quote of maximal
output amount among the valid ones, and on a tie between a valid native quote
and a valid Jupiter quote the native (earlier-registered) quote is returned. -/
theorem selectBestQuote_returns_maximum (nq jq : Option QuoteResult)
    (hne : validQuotes nq jq ≠ []) :
    (∃ q, q ∈ validQuotes nq jq ∧
        selectBestQuote nq jq = Except.ok (q.protocol, q.amount) ∧
        ∀ r ∈ validQuotes nq jq, r.amount ≤ q.amount) ∧
    (∀ n j, nq = some n → jq = some j →
        isValidQuote n = true → isValidQuote j = true → n.amount = j.amount →
        selectBestQuote nq jq = Except.ok (n.protocol, n.amount)) := by
  constructor
  · obtain ⟨q, rest, h⟩ : ∃ q rest, validQuotes nq jq = q :: rest := by
      cases hv : validQuotes nq jq with
      | nil => exact absurd hv hne
      | cons a l => exact ⟨a, l, rfl⟩
    refine ⟨bestOf q rest, ?_, ?_, ?_⟩
    · rw [h]; exact bestOf_mem rest q
    · simp [selectBestQuote, h]
    · intro r hr
      rw [h] at hr
      exact bestOf_ge rest q r hr
  · intro n j hn hj hvn hvj heq
    subst hn; subst hj
    have hv : validQuotes (some n) (some j) = [n, j] := by
      simp [validQuotes, hvn, hvj]
    simp [selectBestQuote, hv, bestOf, heq]

/-- Witness for C1: two valid quotes with equal amounts; the native quote wins. -/
theorem selectBestQuote_returns_maximum_witness :
    validQuotes (some ⟨"dammV2", 100, none⟩) (some ⟨"jupiter", 100, none⟩) ≠ [] ∧
    ((∃ q, q ∈ validQuotes (some ⟨"dammV2", 100, none⟩) (some ⟨"jupiter", 100, none⟩) ∧
        selectBestQuote (some ⟨"dammV2", 100, none⟩) (some ⟨"jupiter", 100, none⟩) =
          Except.ok (q.protocol, q.amount) ∧
        ∀ r ∈ validQuotes (some ⟨"dammV2", 100, none⟩) (some ⟨"jupiter", 100, none⟩),
          r.amount ≤ q.amount) ∧
    (∀ n j, (some ⟨"dammV2", 100, none⟩ : Option QuoteResult) = some n →
        (some ⟨"jupiter", 100, none⟩ : Option QuoteResult) = some j →
        isValidQuote n = true → isValidQuote j = true → n.amount = j.amount →
        selectBestQuote (some ⟨"dammV2", 100, none⟩) (some ⟨"jupiter", 100, none⟩) =
          Except.ok (n.protocol, n.amount))) :=
  ⟨by decide, selectBestQuote_returns_maximum _ _ (by decide)⟩

/-- Claim C2: when every entry is null, carries a (truthy) error message, or
has output amount ≤ 0, `selectBestQuote` throws the no-route error instead of
returning a quote. -/
theorem selectBestQuote_no_route (nq jq : Option QuoteResult)
    (h1 : nq = none ∨ ∃ q, nq = some q ∧ (errTruthy q.error = true ∨ q.amount ≤ 0))
    (h2 : jq = none ∨ ∃ q, jq = some q ∧ (errTruthy q.error = true ∨ q.amount ≤ 0)) :
    selectBestQuote nq jq = Except.error "No valid quotes obtained from any protocol" := by
  have hinv : ∀ q : QuoteResult, (errTruthy q.error = true ∨ q.amount ≤ 0) →
      isValidQuote q = false := by
    intro q hq
    rcases hq with hq | hq
    · simp [isValidQuote, hq]
    · simp [isValidQuote]
      intro _
      omega
  have hv : validQuotes nq jq = [] := by
    rcases h1 with h1 | ⟨q1, hq1, hv1⟩ <;> rcases h2 with h2 | ⟨q2, hq2, hv2⟩
    · subst h1; subst h2; simp [validQuotes]
    · subst h1; subst hq2; simp [validQuotes, hinv q2 hv2]
    · subst hq1; subst h2; simp [validQuotes, hinv q1 hv1]
    · subst hq1; subst hq2; simp [validQuotes, hinv q1 hv1, hinv q2 hv2]
  simp [selectBestQuote, hv]

/-- Witness for C2: one erroring quote and one non-positive quote. -/
theorem selectBestQuote_no_route_witness :
    ((some (⟨"dammV2", 0, some "fetch failed"⟩ : QuoteResult) = none ∨
      ∃ q, (some (⟨"dammV2", 0, some "fetch failed"⟩ : QuoteResult)) = some q ∧
        (errTruthy q.error = true ∨ q.amount ≤ 0)) ∧
     (some (⟨"jupiter", -1, none⟩ : QuoteResult) = none ∨
      ∃ q, (some (⟨"jupiter", -1, none⟩ : QuoteResult)) = some q ∧
        (errTruthy q.error = true ∨ q.amount ≤ 0))) ∧
    selectBestQuote (some ⟨"dammV2", 0, some "fetch failed"⟩) (some ⟨"jupiter", -1, none⟩) =
      Except.error "No valid quotes obtained from any protocol" :=
  ⟨⟨Or.inr ⟨_, rfl, by decide⟩, Or.inr ⟨_, rfl, by decide⟩⟩,
   selectBestQuote_no_route _ _ (Or.inr ⟨_, rfl, by decide⟩) (Or.inr ⟨_, rfl, by decide⟩)⟩

theorem retryRun_all_fail (op : Nat → Except String α) (msg : Nat → String)
    (hfail : ∀ i, op i = Except.error (msg i)) :
    ∀ (k s : Nat) (lastError : Option String),
      retryRun op (attemptNumbers s k) lastError =
        (none, k, if k = 0 then lastError else some (msg (s + k - 1)))
  | 0, s, lastError => by simp [attemptNumbers, retryRun]
  | k + 1, s, lastError => by
    have ih := retryRun_all_fail op msg hfail k (s + 1) (some (msg s))
    simp only [attemptNumbers, retryRun, hfail s, ih]
    have harith : (if k = 0 then some (msg s) else some (msg (s + 1 + k - 1))) =
        some (msg (s + k)) := by
      rcases Nat.eq_zero_or_pos k with hk | hk
      · subst hk; simp
      · rw [if_neg (by omega)]
        have : s + 1 + k - 1 = s + k := by omega
        rw [this]
    have harith2 : s + (k + 1) - 1 = s + k := by omega
    simp [harith, harith2]
    intro hk
    subst hk
    simp

theorem retryTemplate_all_fail (failHead : String) (op : Nat → Except String α)
    (msg : Nat → String) (n : Nat) (hpos : 1 ≤ n)
    (hfail : ∀ i, op i = Except.error (msg i)) :
    retryTemplate failHead op n =
      (Except.error (failHead ++ toString n ++ " attempts. Last error: " ++ msg n), n) := by
  unfold retryTemplate
  rw [retryRun_all_fail op msg hfail n 1 none]
  rw [if_neg (by omega)]
  have : 1 + n - 1 = n := by omega
  rw [this]
  rfl

/-- Claim C3: when every attempt of the underlying operation fails, both retry
loops (`SwapManager.swapTokens` and
`LiquidityPoolManager.createPositionAndAddLiquidity`) invoke the per-attempt
body exactly `maxRetries` times and then throw an error whose message carries
the attempt count and the last underlying error message. -/
theorem retry_exhausts_attempts (op : Nat → Except String α) (msg : Nat → String)
    (op2 : Nat → Except String β) (msg2 : Nat → String) (maxRetries : Nat)
    (hpos : 1 ≤ maxRetries)
    (hfail : ∀ i, op i = Except.error (msg i))
    (hfail2 : ∀ i, op2 i = Except.error (msg2 i)) :
    swapTokensRetry op maxRetries =
      (Except.error ("Swap failed after " ++ toString maxRetries ++
        " attempts. Last error: " ++ msg maxRetries), maxRetries) ∧
    createPositionRetry op2 maxRetries =
      (Except.error ("Position creation failed after " ++ toString maxRetries ++
        " attempts. Last error: " ++ msg2 maxRetries), maxRetries) :=
  ⟨retryTemplate_all_fail _ op msg maxRetries hpos hfail,
   retryTemplate_all_fail _ op2 msg2 maxRetries hpos hfail2⟩

/-- Witness for C3: a concrete always-failing operation with two attempts. -/
theorem retry_exhausts_attempts_witness :
    (1 ≤ 2 ∧
     (∀ i : Nat, (fun k => (Except.error ("boom " ++ toString k) : Except String Nat)) i =
        Except.error ("boom " ++ toString i)) ∧
     (∀ i : Nat, (fun k => (Except.error ("crash " ++ toString k) : Except String Nat)) i =
        Except.error ("crash " ++ toString i))) ∧
    (swapTokensRetry (fun k => (Except.error ("boom " ++ toString k) : Except String Nat)) 2 =
      (Except.error ("Swap failed after " ++ toString 2 ++
        " attempts. Last error: " ++ ("boom " ++ toString 2)), 2) ∧
     createPositionRetry (fun k => (Except.error ("crash " ++ toString k) : Except String Nat)) 2 =
      (Except.error ("Position creation failed after " ++ toString 2 ++
        " attempts. Last error: " ++ ("crash " ++ toString 2)), 2)) :=
  ⟨⟨by omega, fun i => rfl, fun i => rfl⟩,
   retry_exhausts_attempts _ _ _ _ 2 (by omega) (fun i => rfl) (fun i => rfl)⟩

/-- Claim C4: across attempts `i < j` of one retried operation the escalation
parameters are monotone: the swap slippage and the (50-capped) max-accounts
ceiling do not decrease, the position-creation slippage buffer does not
decrease, and the amount-reduction factor does not increase. -/
theorem retry_escalation_monotone (slippage maxAccounts i j : Nat) (hij : i < j) :
    retrySlippage slippage i ≤ retrySlippage slippage j ∧
    retryMaxAccounts maxAccounts i ≤ retryMaxAccounts maxAccounts j ∧
    totalSlippageBuffer i ≤ totalSlippageBuffer j ∧
    amountReduction j ≤ amountReduction i := by
  have h1 : i - 1 ≤ j - 1 := by omega
  have hc : ((i - 1 : Nat) : ℚ) ≤ ((j - 1 : Nat) : ℚ) := by exact_mod_cast h1
  refine ⟨?_, ?_, ?_, ?_⟩
  · unfold retrySlippage
    have : (i - 1) * 50 ≤ (j - 1) * 50 := by omega
    omega
  · unfold retryMaxAccounts
    have : maxAccounts + (i - 1) * 10 ≤ maxAccounts + (j - 1) * 10 := by
      have : (i - 1) * 10 ≤ (j - 1) * 10 := by omega
      omega
    exact min_le_min this le_rfl
  · unfold totalSlippageBuffer retrySlippageBuffer baseSlippageBuffer
    nlinarith [hc]
  · unfold amountReduction
    nlinarith [hc]

/-- Witness for C4: attempts 1 and 2 with the default swap parameters. -/
theorem retry_escalation_monotone_witness :
    1 < 2 ∧
    (retrySlippage 50 1 ≤ retrySlippage 50 2 ∧
     retryMaxAccounts 30 1 ≤ retryMaxAccounts 30 2 ∧
     totalSlippageBuffer 1 ≤ totalSlippageBuffer 2 ∧
     amountReduction 2 ≤ amountReduction 1) :=
  ⟨by omega, retry_escalation_monotone 50 30 1 2 (by omega)⟩

/-- Counterexample to claim C5: with `tokenAAmount = 0` (non-positive, hence
invalid) and `maxRetries = 3`, `createPositionAndAddLiquidity` runs the
per-attempt body 3 times — the invalid-amount throw happens inside the retry
loop's try block, so it is retried like any other error rather than surfaced
after a single attempt. -/
theorem invalid_amount_retried_cex :
    (createPositionAndAddLiquidityModel (fun _ => Except.ok ()) (DecVal.fin 0)
      (DecVal.fin 1) (fun _ => Except.ok (0 : Nat)) 3).2 = 3 ∧ (3 : Nat) ≠ 1 := by
  constructor
  · rfl
  · decide

/-- Claim C5 as amended: a non-finite or non-positive `tokenAAmount` or
`tokenBAmount` makes every attempt fail with the corresponding invalid-amount
error (`tokenAAmount` is validated first), and (when the pool/token prefetch
succeeds) the loop still performs all `maxRetries` attempts before throwing
the aggregate error whose last cause is that invalid-amount message — the
invalid configuration is not surfaced after a single attempt. -/
theorem invalid_amount_retried_full (pre : Nat → Except String Unit) (a b : DecVal)
    (rest : Nat → Except String α) (n : Nat)
    (hpos : 1 ≤ n) (hpre : ∀ i, pre i = Except.ok ())
    (hinv : invalidAmount a = true ∨ invalidAmount b = true) :
    createPositionAndAddLiquidityModel pre a b rest n =
      (Except.error ("Position creation failed after " ++ toString n ++
        " attempts. Last error: " ++
        (if invalidAmount a then "Invalid tokenAAmount: " ++ showDec a
         else "Invalid tokenBAmount: " ++ showDec b)), n) := by
  have hfail : ∀ i, positionAttempt pre a b rest i =
      Except.error (if invalidAmount a then "Invalid tokenAAmount: " ++ showDec a
        else "Invalid tokenBAmount: " ++ showDec b) := by
    intro i
    by_cases ha : invalidAmount a = true
    · simp [positionAttempt, hpre i, ha]
    · rcases hinv with h | h
      · exact absurd h ha
      · simp [positionAttempt, hpre i, ha, h]
  exact retryTemplate_all_fail _ _
    (fun _ => if invalidAmount a then "Invalid tokenAAmount: " ++ showDec a
      else "Invalid tokenBAmount: " ++ showDec b) n hpos hfail

/-- Witness for the amended C5: a valid `tokenAAmount = 1` with an invalid
`tokenBAmount = 0`, three attempts. -/
theorem invalid_amount_retried_full_witness :
    (1 ≤ 3 ∧
     (∀ i : Nat, (fun _ : Nat => (Except.ok () : Except String Unit)) i = Except.ok ()) ∧
     (invalidAmount (DecVal.fin 1) = true ∨ invalidAmount (DecVal.fin 0) = true)) ∧
    createPositionAndAddLiquidityModel (fun _ => Except.ok ()) (DecVal.fin 1) (DecVal.fin 0)
        (fun _ => Except.ok (0 : Nat)) 3 =
      (Except.error ("Position creation failed after " ++ toString 3 ++
        " attempts. Last error: " ++
        (if invalidAmount (DecVal.fin 1) then "Invalid tokenAAmount: " ++ showDec (DecVal.fin 1)
         else "Invalid tokenBAmount: " ++ showDec (DecVal.fin 0))), 3) :=
  ⟨⟨by omega, fun i => rfl, by decide⟩,
   invalid_amount_retried_full _ _ _ _ 3 (by omega) (fun i => rfl) (by decide)⟩

/-- Claim C6: the rebalancing diff is exact — the pools zapped out are exactly
the current pools absent from the desired (trending) set, the candidates added
are exactly the desired entries whose pool is not currently held, and a pool
in both sets is neither removed nor re-added. -/
theorem rebalance_diff_exact (positions : List PositionM) (trend : List TokenProfileM) :
    (∀ pool : String, pool ∈ poolRemoveOf positions trend ↔
      (pool ∈ currentPoolOf positions ∧ pool ∉ trendingPairsOf trend)) ∧
    (∀ t : TokenProfileM, t ∈ tokensToAddOf trend positions ↔
      (t ∈ trend ∧ t.pairAddress ∉ currentPoolOf positions)) ∧
    (∀ pool : String, pool ∈ currentPoolOf positions → pool ∈ trendingPairsOf trend →
      (pool ∉ poolRemoveOf positions trend ∧
       ∀ t ∈ tokensToAddOf trend positions, t.pairAddress ≠ pool)) := by
  have hrem : ∀ pool : String, pool ∈ poolRemoveOf positions trend ↔
      (pool ∈ currentPoolOf positions ∧ pool ∉ trendingPairsOf trend) := by
    intro pool
    simp [poolRemoveOf, List.mem_filter]
  have hadd : ∀ t : TokenProfileM, t ∈ tokensToAddOf trend positions ↔
      (t ∈ trend ∧ t.pairAddress ∉ currentPoolOf positions) := by
    intro t
    simp [tokensToAddOf, List.mem_filter]
  refine ⟨hrem, hadd, ?_⟩
  intro pool hP hD
  constructor
  · intro hcontra
    exact ((hrem pool).mp hcontra).2 hD
  · intro t ht hEq
    exact ((hadd t).mp ht).2 (hEq ▸ hP)

/-- Claim C7: with `M ≥ 1` addition candidates, the per-candidate allocation is
`min(balance · 0.989 / M, MAX_SOL_PER_TOKEN)` and the total committed never
exceeds the margin-scaled available capital `balance · 0.989`. -/
theorem allocation_formula_and_cap (balance maxSolPerToken : ℚ) (numTokens : Nat)
    (hM : 1 ≤ numTokens) :
    solPerTokenOf (availableSolOf balance) numTokens maxSolPerToken =
      min (balance * (989 / 1000) / (numTokens : ℚ)) maxSolPerToken ∧
    totalAllocated numTokens
        (solPerTokenOf (availableSolOf balance) numTokens maxSolPerToken) ≤
      availableSolOf balance := by
  constructor
  · rfl
  · unfold totalAllocated solPerTokenOf availableSolOf
    have h1 : (1 : ℚ) ≤ (numTokens : ℚ) := by exact_mod_cast hM
    have hn : (0 : ℚ) < (numTokens : ℚ) := by linarith
    have hmin : min (balance * (989 / 1000) / (numTokens : ℚ)) maxSolPerToken ≤
        balance * (989 / 1000) / (numTokens : ℚ) := min_le_left _ _
    calc (numTokens : ℚ) * min (balance * (989 / 1000) / (numTokens : ℚ)) maxSolPerToken
        ≤ (numTokens : ℚ) * (balance * (989 / 1000) / (numTokens : ℚ)) :=
          mul_le_mul_of_nonneg_left hmin (le_of_lt hn)
      _ = balance * (989 / 1000) := by
          field_simp
          ring

/-- Witness for C7: two candidates, balance 10 SOL, ceiling 5 SOL. -/
theorem allocation_formula_and_cap_witness :
    1 ≤ 2 ∧
    (solPerTokenOf (availableSolOf 10) 2 5 =
      min ((10 : ℚ) * (989 / 1000) / ((2 : Nat) : ℚ)) 5 ∧
     totalAllocated 2 (solPerTokenOf (availableSolOf 10) 2 5) ≤ availableSolOf 10) :=
  ⟨by omega, allocation_formula_and_cap 10 5 2 (by omega)⟩

/-- Claim C8: when the first remote decimals lookup for a key fails,
`getTokenDecimals` caches the documented default 6 under that key, and a
subsequent call for the same key returns 6 from the cache, leaves the cache
unchanged, and issues no remote lookup. -/
theorem decimals_cache_fallback (remote : String → Except String Nat)
    (cache : List (String × Nat)) (key e : String)
    (hmiss : cache.lookup key = none) (hfail : remote key = Except.error e) :
    getTokenDecimalsModel remote cache key = (6, (key, 6) :: cache, true) ∧
    getTokenDecimalsModel remote ((key, 6) :: cache) key = (6, (key, 6) :: cache, false) := by
  constructor
  · simp [getTokenDecimalsModel, hmiss, hfail]
  · simp [getTokenDecimalsModel, List.lookup]

/-- Witness for C8: a key absent from an empty cache whose remote lookup fails. -/
theorem decimals_cache_fallback_witness :
    (([] : List (String × Nat)).lookup (cacheKeyOf "Mint1" "TokenProg") = none ∧
     (fun _ : String => (Except.error "account not found" : Except String Nat))
        (cacheKeyOf "Mint1" "TokenProg") = Except.error "account not found") ∧
    (getTokenDecimalsModel (fun _ => Except.error "account not found") []
        (cacheKeyOf "Mint1" "TokenProg") =
      (6, (cacheKeyOf "Mint1" "TokenProg", 6) :: [], true) ∧
     getTokenDecimalsModel (fun _ => Except.error "account not found")
        ((cacheKeyOf "Mint1" "TokenProg", 6) :: [])
        (cacheKeyOf "Mint1" "TokenProg") =
      (6, (cacheKeyOf "Mint1" "TokenProg", 6) :: [], false)) :=
  ⟨⟨rfl, rfl⟩, decimals_cache_fallback _ _ _ "account not found" rfl rfl⟩

/-- Counterexample to claim C9: with two pools to remove and nothing to add,
the cycle trace runs the two zap-outs back-to-back with no pacing delay
between them — the remove-phase delay sits after the whole loop, not between
items. -/
theorem pacing_delay_cex :
    pacedApartB (cycleTrace ["poolA", "poolB"] [] (fun _ => true)) = false := by
  rfl

/-- Claim C9 as amended: in the remove phase the zap-outs run back-to-back and
a single fixed 3-second delay follows the whole phase when it is nonempty; in
the add phase the fixed delay follows each successful addition, while a failed
addition is followed immediately by the next item. -/
theorem pacing_delay_actual (poolRemove tokens : List String) (succ : String → Bool) :
    removeLoop poolRemove = poolRemove.map Ev.zap ∧
    removePhase poolRemove =
      (if poolRemove.length > 0 then poolRemove.map Ev.zap ++ [Ev.delay 3000] else []) ∧
    addLoop succ tokens =
      tokens.flatMap (fun t => if succ t then [Ev.add t, Ev.delay 3000] else [Ev.add t]) := by
  have hrl : ∀ ps : List String, removeLoop ps = ps.map Ev.zap := by
    intro ps
    induction ps with
    | nil => rfl
    | cons p rest ih => simp [removeLoop, ih]
  have hal : ∀ ts : List String, addLoop succ ts =
      ts.flatMap (fun t => if succ t then [Ev.add t, Ev.delay 3000] else [Ev.add t]) := by
    intro ts
    induction ts with
    | nil => rfl
    | cons t rest ih =>
      by_cases hs : succ t
      · simp [addLoop, hs, ih]
      · simp [addLoop, hs, ih]
  exact ⟨hrl poolRemove, by rw [removePhase, hrl poolRemove], hal tokens⟩

/-- Claim C10: for a DAMM V2 zap-out, the removal step removes the entire
`unlockedLiquidity` of the first position and closes it, independently of the
configured `percentageToZapOut`; for a DLMM zap-out the removal amounts are
scaled by the percentage (and the bps passed on is `percentage * 100`). -/
theorem zapout_removal_percentage (p : DammPositionState) (ps : List DammPositionState)
    (q : DlmmPositionM) (qs : List DlmmPositionM) (pct pct2 : Nat) :
    executeZapOutRemoval PoolTypeM.dammV2 (p :: ps) (q :: qs) pct =
      Except.ok (RemovalSummary.dammRemoval p.unlockedLiquidity true) ∧
    executeZapOutRemoval PoolTypeM.dammV2 (p :: ps) (q :: qs) pct =
      executeZapOutRemoval PoolTypeM.dammV2 (p :: ps) (q :: qs) pct2 ∧
    executeZapOutRemoval PoolTypeM.dlmm (p :: ps) (q :: qs) pct =
      Except.ok (RemovalSummary.dlmmRemoval
        ((dlmmTotals (q :: qs)).1 * pct / 100)
        ((dlmmTotals (q :: qs)).2 * pct / 100)
        (pct * 100)) :=
  ⟨rfl, rfl, rfl⟩
